import Mathlib

/-
  Verification development for the Stiebel-Eltron CAN-bus reader
  (can_ready_v3.py).  The core under scrutiny is `parse_telegram`, which
  reads a CAN frame's bytes, extracts the Elster index, classifies the
  telegram kind, looks the index up in the external Elster table,
  interprets the raw value, prints log lines according to a verbosity
  level, and publishes Answer telegrams to MQTT when a client is present.

  The embedding below translates `parse_telegram` into a pure function.
  The external table (`lookup_elster_index`) and the value interpreter
  (`interpret_elster_value`) live in elster_table.py, an external
  collaborator; they are taken as function parameters.  Console output is
  modelled as a list of `LogLine` values, each constructor carrying the
  data that the corresponding print statement renders; MQTT publish calls
  are modelled as a list of (topic, payload) pairs.
-/

namespace CanReader

/-- An entry of the external Elster table, as returned by
`lookup_elster_index`: a dictionary with mandatory keys "Name" and "Type"
and an optional key "EnglishName". -/
structure ElsterEntry where
  name : String
  elsterType : String
  englishName : Option String
deriving DecidableEq

/-- One console line printed by `parse_telegram`.  Each constructor
carries the dynamic data interpolated into the corresponding f-string of
the source (the surrounding literal text is fixed, so equality of the
carried data is equality of printed lines). -/
inductive LogLine where
  | invalidFrame (dataHex : List Nat)
  | fullLine (typeStr : String) (canId : Nat) (elsterIndex : Nat)
      (elsterName : String) (value : String) (elsterType : String)
  | terseLine (elsterIndex : Nat) (value : String)
  | debugRawMessage (data : List Nat)
  | debugDataHex (dataHex : List Nat)
  | debugRawVal (rawVal : Nat)
deriving DecidableEq

/-- The observable effects of one `parse_telegram` call: the console
lines printed, in order, and the MQTT publish calls made, in order, each
as a (topic, payload) pair. -/
structure ParseResult where
  logs : List LogLine
  publishes : List (String × String)
deriving DecidableEq

/-- Byte i of the frame data (0 when out of range; `parse_telegram` only
reads indices its length guards make present). -/
def byteAt (data : List Nat) (i : Nat) : Nat :=
  data.getD i 0

/-- elster_index = (data[3] << 8) | data[4]  (source line 72). -/
def elster_index (data : List Nat) : Nat :=
  (byteAt data 3 <<< 8) ||| byteAt data 4

/-- raw_val = (data[5] << 8) | data[6] when len(data) >= 7, else 0
(source lines 75-77). -/
def raw_val (data : List Nat) : Nat :=
  if data.length ≥ 7 then (byteAt data 5 <<< 8) ||| byteAt data 6 else 0

/-- telegram_type = data[0] & 0x0F  (source line 80). -/
def telegram_type (data : List Nat) : Nat :=
  byteAt data 0 &&& 0x0F

/-- address_high = data[0] & 0xF0  (source line 81): the high nibble of
byte 0 left in place, hence a multiple of 16. -/
def address_high (data : List Nat) : Nat :=
  byteAt data 0 &&& 0xF0

/-- address_low = data[1]  (source line 82). -/
def address_low (data : List Nat) : Nat :=
  byteAt data 1

/-- can_id = (address_high * 8) + address_low  (source line 83). -/
def can_id (data : List Nat) : Nat :=
  address_high data * 8 + address_low data

/-- type_dict = {1: "[Request]", 2: "[Answer]", 9: "[Change]"};
type_str = type_dict.get(telegram_type, "[Unknown]")
(source lines 95-96). -/
def type_str (t : Nat) : String :=
  if t = 1 then "[Request]"
  else if t = 2 then "[Answer]"
  else if t = 9 then "[Change]"
  else "[Unknown]"

/-- english_name = entry.get("EnglishName", elster_name)
(source line 89): the optional EnglishName with the canonical Name as
fallback. -/
def display_name (entry : ElsterEntry) : String :=
  entry.englishName.getD entry.name

/-- The embedding of `parse_telegram(msg, mqtt_client, mqtt_prefix,
verbosity)` (source lines 48-117).  `lookup` stands for
`lookup_elster_index`, `interpret` for `interpret_elster_value` composed
with `str` (its result rendered as text, as both the log lines and the
publish payload render it), `data` for `msg.data`, `mqtt_client` for
whether an MQTT client is configured (non-None), `pre` for
`mqtt_prefix`, and `verbosity` for the verbosity level. -/
def parse_telegram (lookup : Nat → ElsterEntry) (interpret : Nat → String → String)
    (data : List Nat) (mqtt_client : Bool) (pre : String) (verbosity : Nat) :
    ParseResult :=
  if data.length < 5 then
    { logs := if verbosity ≥ 2 then [LogLine.invalidFrame data] else []
      publishes := [] }
  else
    let entry := lookup (elster_index data)
    let interpreted_value := interpret (raw_val data) entry.elsterType
    let logs1 :=
      if verbosity ≥ 2 then
        [LogLine.fullLine (type_str (telegram_type data)) (can_id data)
          (elster_index data) entry.name interpreted_value entry.elsterType]
      else if verbosity = 1 ∧ telegram_type data = 2 then
        [LogLine.terseLine (elster_index data) interpreted_value]
      else []
    let logs2 :=
      if verbosity ≥ 3 then
        [LogLine.debugRawMessage data, LogLine.debugDataHex data,
         LogLine.debugRawVal (raw_val data)]
      else []
    let pubs :=
      if mqtt_client = true ∧ telegram_type data = 2 then
        [(pre ++ display_name entry, interpreted_value)]
      else []
    { logs := logs1 ++ logs2, publishes := pubs }

/-- The device address as the spec's claim words it: the high nibble of
byte 0 taken as a value in 0-15 (i.e. shifted down), times 8, plus
byte 1.  This follows the claim's words, for comparison with the
source's `can_id`. -/
def claimed_device_address (data : List Nat) : Nat :=
  (byteAt data 0 >>> 4) * 8 + byteAt data 1

/-- Claim C10: for every frame, the publish calls made by
`parse_telegram` (whether one occurs, and its topic and payload) are
identical for all verbosity values; verbosity influences only the log
output, never publish behaviour. -/
theorem publishes_independent_of_verbosity (lookup : Nat → ElsterEntry)
    (interpret : Nat → String → String) (data : List Nat) (mqtt_client : Bool)
    (pre : String) (v1 v2 : Nat) :
    (parse_telegram lookup interpret data mqtt_client pre v1).publishes =
      (parse_telegram lookup interpret data mqtt_client pre v2).publishes := by
  by_cases h : data.length < 5 <;> simp [parse_telegram, h]

/-- Claim C2, counterexample: the claim's formula — device address =
(high nibble of byte 0 as a value 0-15) * 8 + byte 1, spanning 0-127
plus byte 1's contribution — disagrees with the code.  On the claim's
own example frame the code computes 133 while the claimed formula gives
13, and on a frame with byte 0 = 0xF0 the code computes 1920, beyond
the claimed 0-127 + addressLow span. -/
theorem device_address_claim_false :
    can_id [0x12, 0x05, 0x00, 0x00, 0x64, 0x01, 0x2C] = 133 ∧
    claimed_device_address [0x12, 0x05, 0x00, 0x00, 0x64, 0x01, 0x2C] = 13 ∧
    (133 : Nat) ≠ 13 ∧
    can_id [0xF0, 0x00, 0x00, 0x00, 0x00] = 1920 ∧
    address_low [0xF0, 0x00, 0x00, 0x00, 0x00] = 0 ∧
    ¬ (1920 : Nat) ≤ 127 + 0 := by
  refine ⟨by decide, by decide, by decide, by decide, by decide, by decide⟩

set_option maxRecDepth 4096 in
/-- Claim C2, amended: the computed device address equals
addressHigh * 8 + addressLow where addressHigh is byte 0 & 0xF0 — the
high nibble left in place, a multiple of 16 ranging 0-240 — so the
device address spans 0-1920 plus addressLow's contribution; for the
frame [0x12, 0x05, 0x00, 0x00, 0x64, 0x01, 0x2C] it equals 133 (shown
at the witness). -/
theorem device_address_amended (data : List Nat) (h0 : byteAt data 0 < 256) :
    can_id data = (byteAt data 0 &&& 0xF0) * 8 + byteAt data 1 ∧
    address_high data % 16 = 0 ∧ address_high data ≤ 240 ∧
    can_id data ≤ 1920 + address_low data := by
  have hb : ∀ b < 256, (b &&& 240) % 16 = 0 ∧ b &&& 240 ≤ 240 := by decide
  have h := hb (byteAt data 0) h0
  refine ⟨rfl, h.1, h.2, ?_⟩
  have : address_high data * 8 ≤ 240 * 8 := Nat.mul_le_mul_right 8 h.2
  unfold can_id
  omega

/-- Witness for the amended C2 at the claim's example frame: the device
address is computed from the in-place high nibble and equals 133. -/
theorem device_address_amended_witness :
    can_id [0x12, 0x05, 0x00, 0x00, 0x64, 0x01, 0x2C] =
      (0x12 &&& 0xF0) * 8 + 0x05 ∧
    can_id [0x12, 0x05, 0x00, 0x00, 0x64, 0x01, 0x2C] = 133 := by
  refine ⟨?_, by decide⟩
  exact (device_address_amended [0x12, 0x05, 0x00, 0x00, 0x64, 0x01, 0x2C]
    (by decide)).1

/-- Claim C3: a frame with fewer than 5 bytes is skipped entirely — the
only output is one diagnostic line (a hex dump of the raw bytes) when
verbosity is at least 2, there is no publish call, and the result does
not depend on the registry or the value interpreter at all (neither is
consulted). -/
theorem short_frame_no_decode (lookup1 lookup2 : Nat → ElsterEntry)
    (interpret1 interpret2 : Nat → String → String) (data : List Nat)
    (mqtt_client : Bool) (pre : String) (verbosity : Nat)
    (h : data.length < 5) :
    parse_telegram lookup1 interpret1 data mqtt_client pre verbosity =
      { logs := if verbosity ≥ 2 then [LogLine.invalidFrame data] else []
        publishes := [] } ∧
    parse_telegram lookup1 interpret1 data mqtt_client pre verbosity =
      parse_telegram lookup2 interpret2 data mqtt_client pre verbosity := by
  constructor <;> simp [parse_telegram, h]

/-- Witness for C3 at the spec's example frame [0x00, 0x00]: only the
diagnostic line is emitted at verbosity 2 and nothing is published. -/
theorem short_frame_no_decode_witness :
    ([0, 0] : List Nat).length < 5 ∧
    parse_telegram (fun _ => ⟨"A", "T", none⟩) (fun _ _ => "v")
        [0, 0] true "elster/" 2 =
      { logs := [LogLine.invalidFrame [0, 0]], publishes := [] } := by
  refine ⟨by decide, ?_⟩
  have h := short_frame_no_decode (fun _ => ⟨"A", "T", none⟩)
    (fun _ => ⟨"A", "T", none⟩) (fun _ _ => "v") (fun _ _ => "v")
    [0, 0] true "elster/" 2 (by decide)
  simpa using h.1

/-- Claim C5: for every frame of length at least 5, the index passed to
the registry lookup equals (byte[3] << 8) | byte[4], whatever the total
length: the parse result depends on the registry only through its value
at that index. -/
theorem index_from_bytes_3_4 (lookup1 lookup2 : Nat → ElsterEntry)
    (interpret : Nat → String → String) (data : List Nat) (mqtt_client : Bool)
    (pre : String) (verbosity : Nat) (h : 5 ≤ data.length)
    (hagree : lookup1 ((byteAt data 3 <<< 8) ||| byteAt data 4) =
              lookup2 ((byteAt data 3 <<< 8) ||| byteAt data 4)) :
    elster_index data = (byteAt data 3 <<< 8) ||| byteAt data 4 ∧
    parse_telegram lookup1 interpret data mqtt_client pre verbosity =
      parse_telegram lookup2 interpret data mqtt_client pre verbosity := by
  refine ⟨rfl, ?_⟩
  have h5 : ¬ data.length < 5 := by omega
  have he : lookup1 (elster_index data) = lookup2 (elster_index data) := hagree
  simp [parse_telegram, h5, he]

/-- Witness for C5: two registries that agree at index 0x0064 = 100 (the
index of the example frame) but disagree elsewhere give the same parse
result on that frame, and the extracted index is 100. -/
theorem index_from_bytes_3_4_witness :
    elster_index [0x12, 0x05, 0x00, 0x00, 0x64, 0x01, 0x2C] = 100 ∧
    parse_telegram (fun i => if i = 100 then ⟨"A", "T", none⟩ else ⟨"B", "U", none⟩)
        (fun _ _ => "v") [0x12, 0x05, 0x00, 0x00, 0x64, 0x01, 0x2C] true "elster/" 2 =
      parse_telegram (fun i => if i = 100 then ⟨"A", "T", none⟩ else ⟨"C", "W", none⟩)
        (fun _ _ => "v") [0x12, 0x05, 0x00, 0x00, 0x64, 0x01, 0x2C] true "elster/" 2 := by
  have h := index_from_bytes_3_4
    (fun i => if i = 100 then ⟨"A", "T", none⟩ else ⟨"B", "U", none⟩)
    (fun i => if i = 100 then ⟨"A", "T", none⟩ else ⟨"C", "W", none⟩)
    (fun _ _ => "v") [0x12, 0x05, 0x00, 0x00, 0x64, 0x01, 0x2C] true "elster/" 2
    (by decide) (by decide)
  exact ⟨by decide, h.2⟩

/-- Helper: the fully reduced form of `parse_telegram` on a frame of
length at least 5 (the non-short branch), shared by the claim proofs
below. -/
theorem parse_telegram_long (lookup : Nat → ElsterEntry)
    (interpret : Nat → String → String) (data : List Nat) (mqtt_client : Bool)
    (pre : String) (verbosity : Nat) (h : ¬ data.length < 5) :
    parse_telegram lookup interpret data mqtt_client pre verbosity =
      { logs :=
          (if verbosity ≥ 2 then
            [LogLine.fullLine (type_str (telegram_type data)) (can_id data)
              (elster_index data) (lookup (elster_index data)).name
              (interpret (raw_val data) (lookup (elster_index data)).elsterType)
              (lookup (elster_index data)).elsterType]
          else if verbosity = 1 ∧ telegram_type data = 2 then
            [LogLine.terseLine (elster_index data)
              (interpret (raw_val data) (lookup (elster_index data)).elsterType)]
          else []) ++
          (if verbosity ≥ 3 then
            [LogLine.debugRawMessage data, LogLine.debugDataHex data,
             LogLine.debugRawVal (raw_val data)]
          else [])
        publishes :=
          if mqtt_client = true ∧ telegram_type data = 2 then
            [(pre ++ display_name (lookup (elster_index data)),
              interpret (raw_val data) (lookup (elster_index data)).elsterType)]
          else [] } := by
  simp [parse_telegram, h]

/-- Claim C4: on a frame of length 5 or 6 the raw value is exactly 0; on
a frame of length at least 7 it is (byte[5] << 8) | byte[6]; neither
case is an error — no invalid-frame line is ever printed for a frame of
length at least 5, decoding proceeds, and the raw value is what reaches
the debug output and the interpreter (hence the publish payload). -/
theorem raw_val_conditional (lookup : Nat → ElsterEntry)
    (interpret : Nat → String → String) (data : List Nat) (mqtt_client : Bool)
    (pre : String) (verbosity : Nat) (h : 5 ≤ data.length) :
    (data.length ≤ 6 → raw_val data = 0) ∧
    (7 ≤ data.length → raw_val data = (byteAt data 5 <<< 8) ||| byteAt data 6) ∧
    (∀ l ∈ (parse_telegram lookup interpret data mqtt_client pre verbosity).logs,
      ∀ d, l ≠ LogLine.invalidFrame d) ∧
    (verbosity ≥ 3 → LogLine.debugRawVal (raw_val data) ∈
      (parse_telegram lookup interpret data mqtt_client pre verbosity).logs) ∧
    (mqtt_client = true → telegram_type data = 2 →
      (parse_telegram lookup interpret data mqtt_client pre verbosity).publishes =
        [(pre ++ display_name (lookup (elster_index data)),
          interpret (raw_val data) (lookup (elster_index data)).elsterType)]) := by
  have h5 : ¬ data.length < 5 := by omega
  rw [parse_telegram_long lookup interpret data mqtt_client pre verbosity h5]
  refine ⟨?_, ?_, ?_, ?_, ?_⟩
  · intro h6
    unfold raw_val
    rw [if_neg (by omega)]
  · intro h7
    unfold raw_val
    rw [if_pos (by omega)]
  · intro l hl d
    simp only [List.mem_append] at hl
    rcases hl with h1 | h2
    · split_ifs at h1 <;> simp_all
    · split_ifs at h2
      · simp only [List.mem_cons, List.not_mem_nil, or_false] at h2
        rcases h2 with h2 | h2 | h2 <;> subst h2 <;> simp
      · simp_all
  · intro h3
    simp [h3]
  · intro hc ht
    simp [hc, ht]

/-- Witness for C4: the spec's length-5 Change frame has raw value 0,
and the length-7 example frame has raw value (0x01 << 8) | 0x2C = 300. -/
theorem raw_val_conditional_witness :
    raw_val [0x19, 0x00, 0x00, 0x00, 0x01] = 0 ∧
    raw_val [0x12, 0x05, 0x00, 0x00, 0x64, 0x01, 0x2C] =
      ((0x01 : Nat) <<< 8) ||| 0x2C := by
  constructor
  · exact (raw_val_conditional (fun _ => ⟨"A", "T", none⟩) (fun _ _ => "v")
      [0x19, 0x00, 0x00, 0x00, 0x01] true "elster/" 2 (by decide)).1 (by decide)
  · exact ((raw_val_conditional (fun _ => ⟨"A", "T", none⟩) (fun _ _ => "v")
      [0x12, 0x05, 0x00, 0x00, 0x64, 0x01, 0x2C] true "elster/" 2
      (by decide)).2.1 (by decide)).trans (by decide)

/-- Claim C6: the telegram kind label is derived from the low nibble of
byte 0 by the total mapping 1 to Request, 2 to Answer, 9 to Change and
everything else to Unknown; every input lands in one of the four. -/
theorem telegram_kind_total (data : List Nat) :
    telegram_type data = byteAt data 0 &&& 0x0F ∧
    (telegram_type data = 1 → type_str (telegram_type data) = "[Request]") ∧
    (telegram_type data = 2 → type_str (telegram_type data) = "[Answer]") ∧
    (telegram_type data = 9 → type_str (telegram_type data) = "[Change]") ∧
    (telegram_type data ≠ 1 → telegram_type data ≠ 2 → telegram_type data ≠ 9 →
      type_str (telegram_type data) = "[Unknown]") ∧
    (type_str (telegram_type data) = "[Request]" ∨
     type_str (telegram_type data) = "[Answer]" ∨
     type_str (telegram_type data) = "[Change]" ∨
     type_str (telegram_type data) = "[Unknown]") := by
  refine ⟨rfl, ?_, ?_, ?_, ?_, ?_⟩ <;> unfold type_str <;>
    by_cases h1 : telegram_type data = 1 <;>
    by_cases h2 : telegram_type data = 2 <;>
    by_cases h9 : telegram_type data = 9 <;> simp_all

/-- Witness for C6: byte 0 = 0x12 has low nibble 2 and is classified as
an Answer. -/
theorem telegram_kind_total_witness :
    type_str (telegram_type [0x12, 0x05, 0x00, 0x00, 0x64]) = "[Answer]" :=
  (telegram_kind_total [0x12, 0x05, 0x00, 0x00, 0x64]).2.2.1 (by decide)

/-- Claim C1: on a frame of length at least 5, a publish call is made
precisely when an MQTT client is configured and the telegram kind is
Answer (low nibble of byte 0 equals 2); when made it is a single call
whose topic is the configured topic lead-in concatenated with the
entry's display name and whose payload is the interpreted value rendered
as text; Request/Change/Unknown telegrams never publish even with a
client present, and an Answer with no client publishes nothing (and the
call still succeeds, the embedding being total). -/
theorem publish_iff_answer_and_sink (lookup : Nat → ElsterEntry)
    (interpret : Nat → String → String) (data : List Nat) (mqtt_client : Bool)
    (pre : String) (verbosity : Nat) (h : 5 ≤ data.length) :
    ((parse_telegram lookup interpret data mqtt_client pre verbosity).publishes ≠ [] ↔
      mqtt_client = true ∧ telegram_type data = 2) ∧
    (mqtt_client = true → telegram_type data = 2 →
      (parse_telegram lookup interpret data mqtt_client pre verbosity).publishes =
        [(pre ++ display_name (lookup (elster_index data)),
          interpret (raw_val data) (lookup (elster_index data)).elsterType)]) ∧
    (telegram_type data ≠ 2 →
      (parse_telegram lookup interpret data mqtt_client pre verbosity).publishes = []) ∧
    (mqtt_client = false →
      (parse_telegram lookup interpret data mqtt_client pre verbosity).publishes = []) := by
  have h5 : ¬ data.length < 5 := by omega
  rw [parse_telegram_long lookup interpret data mqtt_client pre verbosity h5]
  by_cases hc : mqtt_client = true <;>
    by_cases ht : telegram_type data = 2 <;> simp_all

/-- Witness for C1 at the spec's example: the Answer frame with raw
value 300 publishes exactly once, to "elster/outside_temp". -/
theorem publish_iff_answer_and_sink_witness :
    (parse_telegram (fun _ => ⟨"OutsideTemp", "et_dec_val", some "outside_temp"⟩)
        (fun rv _ => toString rv) [0x12, 0x05, 0x00, 0x00, 0x64, 0x01, 0x2C]
        true "elster/" 2).publishes = [("elster/outside_temp", "300")] := by
  have h := publish_iff_answer_and_sink
    (fun _ => ⟨"OutsideTemp", "et_dec_val", some "outside_temp"⟩)
    (fun rv _ => toString rv) [0x12, 0x05, 0x00, 0x00, 0x64, 0x01, 0x2C]
    true "elster/" 2 (by decide)
  exact (h.2.1 rfl (by decide)).trans (by decide)

/-- Claim C7: for a decoded telegram (length at least 5), verbosity 0
prints nothing; verbosity 1 prints the terse line exactly when the kind
is Answer and never the full line; verbosity at least 2 prints the full
structured line for every telegram, followed, from verbosity 3 on, by
the three-line debug block; the terse line never appears at verbosity 2
or above (the terse mode is mutually exclusive with the full line). -/
theorem verbosity_logging (lookup : Nat → ElsterEntry)
    (interpret : Nat → String → String) (data : List Nat) (mqtt_client : Bool)
    (pre : String) (h : 5 ≤ data.length) :
    (parse_telegram lookup interpret data mqtt_client pre 0).logs = [] ∧
    ((parse_telegram lookup interpret data mqtt_client pre 1).logs =
      if telegram_type data = 2 then
        [LogLine.terseLine (elster_index data)
          (interpret (raw_val data) (lookup (elster_index data)).elsterType)]
      else []) ∧
    (∀ verbosity, 2 ≤ verbosity →
      (parse_telegram lookup interpret data mqtt_client pre verbosity).logs =
        LogLine.fullLine (type_str (telegram_type data)) (can_id data)
          (elster_index data) (lookup (elster_index data)).name
          (interpret (raw_val data) (lookup (elster_index data)).elsterType)
          (lookup (elster_index data)).elsterType ::
        (if 3 ≤ verbosity then
          [LogLine.debugRawMessage data, LogLine.debugDataHex data,
           LogLine.debugRawVal (raw_val data)]
        else [])) ∧
    (∀ verbosity, 2 ≤ verbosity → ∀ i v,
      LogLine.terseLine i v ∉
        (parse_telegram lookup interpret data mqtt_client pre verbosity).logs) := by
  have h5 : ¬ data.length < 5 := by omega
  refine ⟨?_, ?_, ?_, ?_⟩
  · rw [parse_telegram_long lookup interpret data mqtt_client pre 0 h5]
    simp
  · rw [parse_telegram_long lookup interpret data mqtt_client pre 1 h5]
    by_cases ht : telegram_type data = 2 <;> simp [ht]
  · intro verbosity hv
    rw [parse_telegram_long lookup interpret data mqtt_client pre verbosity h5]
    rw [if_pos (by omega : verbosity ≥ 2)]
    simp [ge_iff_le]
  · intro verbosity hv i v
    rw [parse_telegram_long lookup interpret data mqtt_client pre verbosity h5]
    rw [if_pos (by omega : verbosity ≥ 2)]
    split_ifs <;> simp

/-- Witness for C7 on the example Answer frame: verbosity 0 prints
nothing, verbosity 1 prints the terse line, verbosity 2 prints exactly
the full line. -/
theorem verbosity_logging_witness :
    (parse_telegram (fun _ => ⟨"A", "T", none⟩) (fun _ _ => "v")
        [0x12, 0x05, 0x00, 0x00, 0x64, 0x01, 0x2C] true "elster/" 0).logs = [] ∧
    (parse_telegram (fun _ => ⟨"A", "T", none⟩) (fun _ _ => "v")
        [0x12, 0x05, 0x00, 0x00, 0x64, 0x01, 0x2C] true "elster/" 1).logs =
      [LogLine.terseLine 100 "v"] ∧
    (parse_telegram (fun _ => ⟨"A", "T", none⟩) (fun _ _ => "v")
        [0x12, 0x05, 0x00, 0x00, 0x64, 0x01, 0x2C] true "elster/" 2).logs =
      [LogLine.fullLine "[Answer]" 133 100 "A" "v" "T"] := by
  have h := verbosity_logging (fun _ => ⟨"A", "T", none⟩) (fun _ _ => "v")
    [0x12, 0x05, 0x00, 0x00, 0x64, 0x01, 0x2C] true "elster/" (by decide)
  refine ⟨h.1, ?_, ?_⟩
  · exact h.2.1.trans (by decide)
  · exact (h.2.2.1 2 (by decide)).trans (by decide)

/-- Claim C8: the display name used to build the publish topic is the
registry entry's EnglishName when present and falls back to the entry's
canonical Name when absent; on an Answer frame with a client configured
the topic is the topic lead-in concatenated with exactly that name. -/
theorem display_name_default (lookup : Nat → ElsterEntry)
    (interpret : Nat → String → String) (data : List Nat)
    (pre : String) (verbosity : Nat) (h : 5 ≤ data.length)
    (ha : telegram_type data = 2) :
    (∀ e, (lookup (elster_index data)).englishName = some e →
      display_name (lookup (elster_index data)) = e ∧
      (parse_telegram lookup interpret data true pre verbosity).publishes =
        [(pre ++ e,
          interpret (raw_val data) (lookup (elster_index data)).elsterType)]) ∧
    ((lookup (elster_index data)).englishName = none →
      display_name (lookup (elster_index data)) = (lookup (elster_index data)).name ∧
      (parse_telegram lookup interpret data true pre verbosity).publishes =
        [(pre ++ (lookup (elster_index data)).name,
          interpret (raw_val data) (lookup (elster_index data)).elsterType)]) := by
  have h5 : ¬ data.length < 5 := by omega
  rw [parse_telegram_long lookup interpret data true pre verbosity h5]
  constructor
  · intro e he
    have hd : display_name (lookup (elster_index data)) = e := by
      unfold display_name
      rw [he]
      rfl
    exact ⟨hd, by simp [ha, hd]⟩
  · intro he
    have hd : display_name (lookup (elster_index data)) =
        (lookup (elster_index data)).name := by
      unfold display_name
      rw [he]
      rfl
    exact ⟨hd, by simp [ha, hd]⟩

/-- Witness for C8: with EnglishName present the topic uses it; with
EnglishName absent the topic falls back to the canonical Name. -/
theorem display_name_default_witness :
    (parse_telegram (fun _ => ⟨"OutsideTemp", "T", some "outside_temp"⟩)
        (fun _ _ => "30.0") [0x12, 0x05, 0x00, 0x00, 0x64, 0x01, 0x2C]
        true "elster/" 2).publishes = [("elster/outside_temp", "30.0")] ∧
    (parse_telegram (fun _ => ⟨"OutsideTemp", "T", none⟩)
        (fun _ _ => "30.0") [0x12, 0x05, 0x00, 0x00, 0x64, 0x01, 0x2C]
        true "elster/" 2).publishes = [("elster/OutsideTemp", "30.0")] := by
  constructor
  · have h := (display_name_default (fun _ => ⟨"OutsideTemp", "T", some "outside_temp"⟩)
      (fun _ _ => "30.0") [0x12, 0x05, 0x00, 0x00, 0x64, 0x01, 0x2C] "elster/" 2
      (by decide) (by decide)).1 "outside_temp" rfl
    exact h.2.trans (by decide)
  · have h := (display_name_default (fun _ => ⟨"OutsideTemp", "T", none⟩)
      (fun _ _ => "30.0") [0x12, 0x05, 0x00, 0x00, 0x64, 0x01, 0x2C] "elster/" 2
      (by decide) (by decide)).2 rfl
    exact h.2.trans (by decide)

/-- Claim C9, counterexample: two frames identical except at byte 2 do
not always produce the same outputs — at verbosity 3 the debug hex dump
prints every byte, byte 2 included, so the log lines differ. -/
theorem byte2_read_counterexample :
    parse_telegram (fun _ => ⟨"A", "T", none⟩) (fun _ _ => "v")
        [0x12, 0x05, 0x00, 0x00, 0x64, 0x01, 0x2C] true "elster/" 3 ≠
      parse_telegram (fun _ => ⟨"A", "T", none⟩) (fun _ _ => "v")
        [0x12, 0x05, 0xFF, 0x00, 0x64, 0x01, 0x2C] true "elster/" 3 := by
  decide

/-- Claim C9, amended: for two frames of length at least 5 identical
except at byte index 2, the publish calls (occurrence, topic and
payload) are always identical, and at verbosity at most 2 the entire
output — log lines included — is identical: byte 2 is never read by the
decoding logic proper, and only reaches the raw-frame hex dumps printed
at verbosity 3 and above. -/
theorem byte2_unused_amended (lookup : Nat → ElsterEntry)
    (interpret : Nat → String → String) (d1 d2 : List Nat) (mqtt_client : Bool)
    (pre : String) (verbosity : Nat) (h : 5 ≤ d1.length)
    (hlen : d1.length = d2.length)
    (hagree : ∀ i, i ≠ 2 → byteAt d1 i = byteAt d2 i) :
    (parse_telegram lookup interpret d1 mqtt_client pre verbosity).publishes =
      (parse_telegram lookup interpret d2 mqtt_client pre verbosity).publishes ∧
    (verbosity ≤ 2 →
      parse_telegram lookup interpret d1 mqtt_client pre verbosity =
        parse_telegram lookup interpret d2 mqtt_client pre verbosity) := by
  have h5 : ¬ d1.length < 5 := by omega
  have h5' : ¬ d2.length < 5 := by omega
  have e_idx : elster_index d1 = elster_index d2 := by
    unfold elster_index
    rw [hagree 3 (by omega), hagree 4 (by omega)]
  have e_rv : raw_val d1 = raw_val d2 := by
    unfold raw_val
    rw [hlen, hagree 5 (by omega), hagree 6 (by omega)]
  have e_t : telegram_type d1 = telegram_type d2 := by
    unfold telegram_type
    rw [hagree 0 (by omega)]
  have e_cid : can_id d1 = can_id d2 := by
    unfold can_id address_high address_low
    rw [hagree 0 (by omega), hagree 1 (by omega)]
  rw [parse_telegram_long lookup interpret d1 mqtt_client pre verbosity h5,
      parse_telegram_long lookup interpret d2 mqtt_client pre verbosity h5',
      e_idx, e_rv, e_t, e_cid]
  constructor
  · rfl
  · intro hv
    have h3 : ¬ verbosity ≥ 3 := by omega
    simp [h3]

/-- Witness for the amended C9: at verbosity 2, flipping byte 2 of the
example frame from 0x00 to 0xFF changes nothing in the output. -/
theorem byte2_unused_amended_witness :
    parse_telegram (fun _ => ⟨"A", "T", none⟩) (fun _ _ => "v")
        [0x12, 0x05, 0x00, 0x00, 0x64, 0x01, 0x2C] true "elster/" 2 =
      parse_telegram (fun _ => ⟨"A", "T", none⟩) (fun _ _ => "v")
        [0x12, 0x05, 0xFF, 0x00, 0x64, 0x01, 0x2C] true "elster/" 2 := by
  have hagree : ∀ i, i ≠ 2 →
      byteAt [0x12, 0x05, 0x00, 0x00, 0x64, 0x01, 0x2C] i =
        byteAt [0x12, 0x05, 0xFF, 0x00, 0x64, 0x01, 0x2C] i := by
    intro i hi
    match i with
    | 0 => rfl
    | 1 => rfl
    | 2 => exact absurd rfl hi
    | 3 => rfl
    | 4 => rfl
    | 5 => rfl
    | 6 => rfl
    | n + 7 => rfl
  exact (byte2_unused_amended (fun _ => ⟨"A", "T", none⟩) (fun _ _ => "v")
    [0x12, 0x05, 0x00, 0x00, 0x64, 0x01, 0x2C]
    [0x12, 0x05, 0xFF, 0x00, 0x64, 0x01, 0x2C]
    true "elster/" 2 (by decide) (by decide) hagree).2 (by decide)

end CanReader
